import Mathlib

/-!
Shallow embedding of the SWE-bench evaluation harness (grading engine,
image build/cache pipeline, container utilities) together with theorems
settling the specification claims about it.

Python dictionaries `str -> str` are modelled as association lists with
first-match lookup; Python float division of list lengths is modelled as
exact rational division.
-/

/-! ## Test and resolution status constants (swebench/harness/constants.py) -/

/-- Status string of a passed test (TestStatus.PASSED.value). -/
def TestStatus.PASSED : String := "PASSED"

/-- Status string of a failed test (TestStatus.FAILED.value). -/
def TestStatus.FAILED : String := "FAILED"

/-- Status string of a skipped test (TestStatus.SKIPPED.value). -/
def TestStatus.SKIPPED : String := "SKIPPED"

/-- Status string of an errored test (TestStatus.ERROR.value). -/
def TestStatus.ERROR : String := "ERROR"

/-- Status string of an expected-failure test (TestStatus.XFAIL.value).
Modelled from the spec: the harness `TestStatus` enum is referenced by
`grading.py` but its declaration is not among the provided sources; the
member used there is `XFAIL`, a status distinct from the four statuses of
the spec data model. -/
def TestStatus.XFAIL : String := "XFAIL"

/-- Resolution verdict string for a fully resolved instance. -/
def ResolvedStatus.FULL : String := "RESOLVED_FULL"

/-- Resolution verdict string for a partially resolved instance. -/
def ResolvedStatus.PARTIAL : String := "RESOLVED_PARTIAL"

/-- Resolution verdict string for an unresolved instance. -/
def ResolvedStatus.NO : String := "RESOLVED_NO"

/-- Log marker emitted when applying the patch failed. -/
def APPLY_PATCH_FAIL : String := ">>>>> Patch Apply Failed"

/-- Log marker emitted when the patch was applied. -/
def APPLY_PATCH_PASS : String := ">>>>> Applied Patch"

/-- Log marker emitted when resetting the task environment failed. -/
def RESET_FAILED : String := ">>>>> Reset Failed"

/-- Log marker emitted when the test run errored. -/
def TESTS_ERROR : String := ">>>>> Tests Errored"

/-- Log marker emitted when the test run timed out. -/
def TESTS_TIMEOUT : String := ">>>>> Tests Timed Out"

/-! ## Status maps and grading utilities (swebench/harness/grading.py) -/

/-- Evaluation status map: test case id to status string, the Lean model of
the Python dict produced by a log parser. -/
abbrev StatusMap : Type := List (String × String)

/-- Embedding of `grading.test_passed`: the case is in the map and its
status is PASSED or XFAIL. -/
def test_passed (case : String) (sm : StatusMap) : Bool :=
  match sm.lookup case with
  | some v => v == TestStatus.PASSED || v == TestStatus.XFAIL
  | none => false

/-- Embedding of `grading.test_failed`: the case is not in the map, or its
status is FAILED or ERROR. -/
def test_failed (case : String) (sm : StatusMap) : Bool :=
  match sm.lookup case with
  | some v => v == TestStatus.FAILED || v == TestStatus.ERROR
  | none => true

/-- Gold results dictionary passed to `get_eval_tests_report`: the four
reference test-id lists keyed FAIL_TO_PASS / PASS_TO_PASS / FAIL_TO_FAIL /
PASS_TO_FAIL. -/
structure GoldResults where
  FAIL_TO_PASS : List String
  PASS_TO_PASS : List String
  FAIL_TO_FAIL : List String
  PASS_TO_FAIL : List String
deriving Repr

/-- Report produced by `get_eval_tests_report`: success and failure lists
for each reference category. -/
structure TestsReport where
  f2p_success : List String
  f2p_failure : List String
  p2p_success : List String
  p2p_failure : List String
  f2f_success : List String
  f2f_failure : List String
  p2f_success : List String
  p2f_failure : List String
deriving Repr, DecidableEq

/-- Embedding of `grading.get_eval_tests_report`. Each loop
`if test_passed: success.append(t) elif test_failed: failure.append(t)`
is rendered as two filters over the reference list. -/
def get_eval_tests_report (eval_sm : StatusMap) (gold_results : GoldResults)
    (calculate_to_fail : Bool) : TestsReport where
  f2p_success := gold_results.FAIL_TO_PASS.filter (fun t => test_passed t eval_sm)
  f2p_failure := gold_results.FAIL_TO_PASS.filter
    (fun t => !test_passed t eval_sm && test_failed t eval_sm)
  p2p_success := gold_results.PASS_TO_PASS.filter (fun t => test_passed t eval_sm)
  p2p_failure := gold_results.PASS_TO_PASS.filter
    (fun t => !test_passed t eval_sm && test_failed t eval_sm)
  f2f_success := if calculate_to_fail then
    gold_results.FAIL_TO_FAIL.filter (fun t => test_passed t eval_sm) else []
  f2f_failure := if calculate_to_fail then
    gold_results.FAIL_TO_FAIL.filter
      (fun t => !test_passed t eval_sm && test_failed t eval_sm) else []
  p2f_success := if calculate_to_fail then
    gold_results.PASS_TO_FAIL.filter (fun t => test_passed t eval_sm) else []
  p2f_failure := if calculate_to_fail then
    gold_results.PASS_TO_FAIL.filter
      (fun t => !test_passed t eval_sm && test_failed t eval_sm) else []

/-- Embedding of `grading.compute_fail_to_pass`: successes over total for
the FAIL_TO_PASS category, 1 when the total is 0 (exact rational division
models Python float division). -/
def compute_fail_to_pass (report : TestsReport) : ℚ :=
  let total := report.f2p_success.length + report.f2p_failure.length
  if total = 0 then 1 else (report.f2p_success.length : ℚ) / (total : ℚ)

/-- Embedding of `grading.compute_pass_to_pass`: successes over total for
the PASS_TO_PASS category, 1 when the total is 0. -/
def compute_pass_to_pass (report : TestsReport) : ℚ :=
  let total := report.p2p_success.length + report.p2p_failure.length
  if total = 0 then 1 else (report.p2p_success.length : ℚ) / (total : ℚ)

/-- Embedding of `grading.get_resolution_status`: FULL when both rates are
1, PARTIAL when the fail-to-pass rate is strictly between 0 and 1 and the
pass-to-pass rate is 1, otherwise NO. -/
def get_resolution_status (report : TestsReport) : String :=
  let f2p := compute_fail_to_pass report
  let p2p := compute_pass_to_pass report
  if f2p = 1 ∧ p2p = 1 then ResolvedStatus.FULL
  else if f2p < 1 ∧ 0 < f2p ∧ p2p = 1 then ResolvedStatus.PARTIAL
  else ResolvedStatus.NO

/-! ### Rate characterization lemmas -/

/-- Success rate of a category with `s` successes and `f` failures, the
common shape of `compute_fail_to_pass` and `compute_pass_to_pass`. -/
def successRate (s f : Nat) : ℚ :=
  if s + f = 0 then 1 else (s : ℚ) / ((s + f : Nat) : ℚ)

theorem compute_fail_to_pass_eq_rate (r : TestsReport) :
    compute_fail_to_pass r = successRate r.f2p_success.length r.f2p_failure.length := rfl

theorem compute_pass_to_pass_eq_rate (r : TestsReport) :
    compute_pass_to_pass r = successRate r.p2p_success.length r.p2p_failure.length := rfl

theorem successRate_le_one (s f : Nat) : successRate s f ≤ 1 := by
  unfold successRate
  split
  · exact le_refl 1
  · rename_i h
    rw [div_le_one (by positivity)]
    exact_mod_cast Nat.le_add_right s f

theorem successRate_eq_one_iff (s f : Nat) : successRate s f = 1 ↔ f = 0 := by
  unfold successRate
  split
  · rename_i h
    simp [Nat.add_eq_zero] at h
    simp [h]
  · rename_i h
    have hpos : (0 : ℚ) < ((s + f : Nat) : ℚ) := by positivity
    rw [div_eq_one_iff_eq (ne_of_gt hpos)]
    constructor
    · intro he
      have : s = s + f := by exact_mod_cast he
      omega
    · intro hf
      subst hf
      norm_num

theorem successRate_pos_iff (s f : Nat) : 0 < successRate s f ↔ (f = 0 ∨ 0 < s) := by
  unfold successRate
  split
  · rename_i h
    simp [Nat.add_eq_zero] at h
    simp [h]
  · rename_i h
    have hpos : (0 : ℚ) < ((s + f : Nat) : ℚ) := by positivity
    rw [div_pos_iff]
    constructor
    · rintro (⟨hs, -⟩ | ⟨hs, hd⟩)
      · right
        exact_mod_cast hs
      · exact absurd hpos (not_lt.2 (le_of_lt hd))
    · rintro (hf | hs)
      · subst hf
        left
        constructor
        · have : s ≠ 0 := by omega
          exact_mod_cast Nat.pos_of_ne_zero this
        · exact hpos
      · left
        exact ⟨by exact_mod_cast hs, hpos⟩

theorem successRate_lt_one_iff (s f : Nat) : successRate s f < 1 ↔ f ≠ 0 := by
  constructor
  · intro hlt hf
    rw [← successRate_eq_one_iff s f] at hf
    exact absurd hf (ne_of_lt hlt)
  · intro hf
    rcases lt_or_eq_of_le (successRate_le_one s f) with h | h
    · exact h
    · rw [successRate_eq_one_iff] at h
      exact absurd h hf

/-- The three branch strings of `get_resolution_status` are pairwise
distinct. -/
theorem resolvedStatus_distinct :
    ResolvedStatus.FULL ≠ ResolvedStatus.PARTIAL ∧
    ResolvedStatus.FULL ≠ ResolvedStatus.NO ∧
    ResolvedStatus.PARTIAL ≠ ResolvedStatus.NO := by decide

theorem get_resolution_status_eq_full_iff (r : TestsReport) :
    get_resolution_status r = ResolvedStatus.FULL ↔
      compute_fail_to_pass r = 1 ∧ compute_pass_to_pass r = 1 := by
  simp only [get_resolution_status]
  split_ifs with h1 h2
  · simpa using h1
  · simpa [resolvedStatus_distinct.1.symm] using h1
  · simpa [resolvedStatus_distinct.2.1.symm] using h1

theorem get_resolution_status_eq_partial_iff (r : TestsReport) :
    get_resolution_status r = ResolvedStatus.PARTIAL ↔
      (compute_fail_to_pass r < 1 ∧ 0 < compute_fail_to_pass r ∧
        compute_pass_to_pass r = 1) := by
  simp only [get_resolution_status]
  split_ifs with h1 h2
  · constructor
    · intro he
      exact absurd he resolvedStatus_distinct.1
    · rintro ⟨hlt, -, -⟩
      exact absurd h1.1 (ne_of_lt hlt)
  · simpa using h2
  · constructor
    · intro he
      exact absurd he.symm resolvedStatus_distinct.2.2
    · intro hc
      exact absurd hc h2

theorem get_resolution_status_eq_no_iff (r : TestsReport) :
    get_resolution_status r = ResolvedStatus.NO ↔
      ¬(compute_fail_to_pass r = 1 ∧ compute_pass_to_pass r = 1) ∧
      ¬(compute_fail_to_pass r < 1 ∧ 0 < compute_fail_to_pass r ∧
        compute_pass_to_pass r = 1) := by
  simp only [get_resolution_status]
  split_ifs with h1 h2
  · constructor
    · intro he
      exact absurd he resolvedStatus_distinct.2.1
    · rintro ⟨hn1, -⟩
      exact absurd h1 hn1
  · constructor
    · intro he
      exact absurd he resolvedStatus_distinct.2.2
    · rintro ⟨-, hn2⟩
      exact absurd h2 hn2
  · exact ⟨fun _ => ⟨h1, h2⟩, fun _ => rfl⟩

/-! ### Membership lemmas for the report lists -/

theorem mem_f2p_success_iff (sm : StatusMap) (gold : GoldResults) (ctf : Bool)
    (t : String) :
    t ∈ (get_eval_tests_report sm gold ctf).f2p_success ↔
      t ∈ gold.FAIL_TO_PASS ∧ test_passed t sm = true := by
  simp [get_eval_tests_report, List.mem_filter]

theorem mem_f2p_failure_iff (sm : StatusMap) (gold : GoldResults) (ctf : Bool)
    (t : String) :
    t ∈ (get_eval_tests_report sm gold ctf).f2p_failure ↔
      t ∈ gold.FAIL_TO_PASS ∧ test_passed t sm = false ∧ test_failed t sm = true := by
  simp [get_eval_tests_report, List.mem_filter, Bool.not_eq_true']

theorem mem_p2p_success_iff (sm : StatusMap) (gold : GoldResults) (ctf : Bool)
    (t : String) :
    t ∈ (get_eval_tests_report sm gold ctf).p2p_success ↔
      t ∈ gold.PASS_TO_PASS ∧ test_passed t sm = true := by
  simp [get_eval_tests_report, List.mem_filter]

theorem mem_p2p_failure_iff (sm : StatusMap) (gold : GoldResults) (ctf : Bool)
    (t : String) :
    t ∈ (get_eval_tests_report sm gold ctf).p2p_failure ↔
      t ∈ gold.PASS_TO_PASS ∧ test_passed t sm = false ∧ test_failed t sm = true := by
  simp [get_eval_tests_report, List.mem_filter, Bool.not_eq_true']

/-- For a test id that is absent from the map, or mapped to FAILED or to
ERROR, `test_passed` is false and `test_failed` is true. -/
theorem test_outcome_of_bad_status (sm : StatusMap) (t : String)
    (hbad : sm.lookup t = none ∨ sm.lookup t = some TestStatus.FAILED ∨
      sm.lookup t = some TestStatus.ERROR) :
    test_passed t sm = false ∧ test_failed t sm = true := by
  rcases hbad with h | h | h <;> simp [test_passed, test_failed, h] <;> decide

/-! ## Claim C1 -/

/-- C1: for every tests-status report, the verdict of
`get_resolution_status` is FULL iff both rates equal 1; PARTIAL iff the
fail-to-pass rate is strictly between 0 and 1 and the pass-to-pass rate
equals 1; and NO in every other case — where each rate is the one computed
by `compute_fail_to_pass` / `compute_pass_to_pass` (successes over
successes plus failures, 1 when that total is 0). -/
theorem resolution_verdict_characterization (r : TestsReport) :
    (get_resolution_status r = ResolvedStatus.FULL ↔
      compute_fail_to_pass r = 1 ∧ compute_pass_to_pass r = 1) ∧
    (get_resolution_status r = ResolvedStatus.PARTIAL ↔
      0 < compute_fail_to_pass r ∧ compute_fail_to_pass r < 1 ∧
        compute_pass_to_pass r = 1) ∧
    (get_resolution_status r = ResolvedStatus.NO ↔
      ¬(compute_fail_to_pass r = 1 ∧ compute_pass_to_pass r = 1) ∧
      ¬(0 < compute_fail_to_pass r ∧ compute_fail_to_pass r < 1 ∧
        compute_pass_to_pass r = 1)) := by
  refine ⟨get_resolution_status_eq_full_iff r, ?_, ?_⟩
  · rw [get_resolution_status_eq_partial_iff r]
    tauto
  · rw [get_resolution_status_eq_no_iff r]
    constructor
    · rintro ⟨hn1, hn2⟩
      exact ⟨hn1, fun h => hn2 ⟨h.2.1, h.1, h.2.2⟩⟩
    · rintro ⟨hn1, hn2⟩
      exact ⟨hn1, fun h => hn2 ⟨h.2.1, h.1, h.2.2⟩⟩

/-! ## Claim C2 -/

/-- C2: if any PASS_TO_PASS test id is recorded as FAILED or ERROR in the
status map, or is absent from it, then the resolution verdict is neither
FULL nor PARTIAL, regardless of the FAIL_TO_PASS outcomes. -/
theorem p2p_regression_forecloses_full_and_partial (sm : StatusMap)
    (gold : GoldResults) (ctf : Bool) (t : String)
    (ht : t ∈ gold.PASS_TO_PASS)
    (hbad : sm.lookup t = none ∨ sm.lookup t = some TestStatus.FAILED ∨
      sm.lookup t = some TestStatus.ERROR) :
    get_resolution_status (get_eval_tests_report sm gold ctf) ≠
      ResolvedStatus.FULL ∧
    get_resolution_status (get_eval_tests_report sm gold ctf) ≠
      ResolvedStatus.PARTIAL := by
  obtain ⟨hp, hf⟩ := test_outcome_of_bad_status sm t hbad
  have hmem : t ∈ (get_eval_tests_report sm gold ctf).p2p_failure :=
    (mem_p2p_failure_iff sm gold ctf t).2 ⟨ht, hp, hf⟩
  have hfail : (get_eval_tests_report sm gold ctf).p2p_failure.length ≠ 0 := by
    intro h0
    rw [List.length_eq_zero] at h0
    rw [h0] at hmem
    exact absurd hmem (List.not_mem_nil t)
  have hrate : compute_pass_to_pass (get_eval_tests_report sm gold ctf) ≠ 1 := by
    rw [compute_pass_to_pass_eq_rate]
    intro h1
    exact hfail ((successRate_eq_one_iff _ _).1 h1)
  constructor
  · intro hfull
    exact hrate ((get_resolution_status_eq_full_iff _).1 hfull).2
  · intro hpartial
    exact hrate ((get_resolution_status_eq_partial_iff _).1 hpartial).2.2

/-- Witness for C2: a concrete status map in which the only PASS_TO_PASS id
is FAILED while the FAIL_TO_PASS id passes, and the verdict is neither FULL
nor PARTIAL. -/
theorem p2p_regression_forecloses_full_and_partial_witness :
    get_resolution_status (get_eval_tests_report
      [("f", "PASSED"), ("p", "FAILED")] ⟨["f"], ["p"], [], []⟩ false) ≠
      ResolvedStatus.FULL ∧
    get_resolution_status (get_eval_tests_report
      [("f", "PASSED"), ("p", "FAILED")] ⟨["f"], ["p"], [], []⟩ false) ≠
      ResolvedStatus.PARTIAL :=
  p2p_regression_forecloses_full_and_partial
    [("f", "PASSED"), ("p", "FAILED")] ⟨["f"], ["p"], [], []⟩ false "p"
    (by decide) (Or.inr (Or.inl (by decide)))

/-! ## Claim C3 -/

/-- C3: a test id absent from the evaluation status map makes
`test_passed` false and `test_failed` true, so when it belongs to
FAIL_TO_PASS or PASS_TO_PASS it lands in the failure list of
`get_eval_tests_report` (hence in the rate denominator, which becomes
positive) and never in the success list. -/
theorem absent_test_counted_as_failure (sm : StatusMap) (gold : GoldResults)
    (ctf : Bool) (t : String) (habs : sm.lookup t = none) :
    test_passed t sm = false ∧ test_failed t sm = true ∧
    (t ∈ gold.FAIL_TO_PASS →
      t ∈ (get_eval_tests_report sm gold ctf).f2p_failure ∧
      t ∉ (get_eval_tests_report sm gold ctf).f2p_success ∧
      0 < (get_eval_tests_report sm gold ctf).f2p_success.length +
        (get_eval_tests_report sm gold ctf).f2p_failure.length) ∧
    (t ∈ gold.PASS_TO_PASS →
      t ∈ (get_eval_tests_report sm gold ctf).p2p_failure ∧
      t ∉ (get_eval_tests_report sm gold ctf).p2p_success ∧
      0 < (get_eval_tests_report sm gold ctf).p2p_success.length +
        (get_eval_tests_report sm gold ctf).p2p_failure.length) := by
  obtain ⟨hp, hf⟩ := test_outcome_of_bad_status sm t (Or.inl habs)
  refine ⟨hp, hf, fun hmem => ?_, fun hmem => ?_⟩
  · have hin : t ∈ (get_eval_tests_report sm gold ctf).f2p_failure :=
      (mem_f2p_failure_iff sm gold ctf t).2 ⟨hmem, hp, hf⟩
    refine ⟨hin, fun hsucc => ?_, ?_⟩
    · have := ((mem_f2p_success_iff sm gold ctf t).1 hsucc).2
      rw [hp] at this
      exact Bool.false_ne_true this
    · have : 0 < (get_eval_tests_report sm gold ctf).f2p_failure.length :=
        List.length_pos.2 (List.ne_nil_of_mem hin)
      omega
  · have hin : t ∈ (get_eval_tests_report sm gold ctf).p2p_failure :=
      (mem_p2p_failure_iff sm gold ctf t).2 ⟨hmem, hp, hf⟩
    refine ⟨hin, fun hsucc => ?_, ?_⟩
    · have := ((mem_p2p_success_iff sm gold ctf t).1 hsucc).2
      rw [hp] at this
      exact Bool.false_ne_true this
    · have : 0 < (get_eval_tests_report sm gold ctf).p2p_failure.length :=
        List.length_pos.2 (List.ne_nil_of_mem hin)
      omega

/-- Witness for C3: test id "m" is absent from a concrete one-entry status
map and is listed in both reference sets. -/
theorem absent_test_counted_as_failure_witness :
    test_passed "m" [("a", "PASSED")] = false ∧
    test_failed "m" [("a", "PASSED")] = true ∧
    ("m" ∈ (["m"] : List String) →
      "m" ∈ (get_eval_tests_report [("a", "PASSED")]
        ⟨["m"], ["m"], [], []⟩ false).f2p_failure ∧
      "m" ∉ (get_eval_tests_report [("a", "PASSED")]
        ⟨["m"], ["m"], [], []⟩ false).f2p_success ∧
      0 < (get_eval_tests_report [("a", "PASSED")]
        ⟨["m"], ["m"], [], []⟩ false).f2p_success.length +
        (get_eval_tests_report [("a", "PASSED")]
          ⟨["m"], ["m"], [], []⟩ false).f2p_failure.length) ∧
    ("m" ∈ (["m"] : List String) →
      "m" ∈ (get_eval_tests_report [("a", "PASSED")]
        ⟨["m"], ["m"], [], []⟩ false).p2p_failure ∧
      "m" ∉ (get_eval_tests_report [("a", "PASSED")]
        ⟨["m"], ["m"], [], []⟩ false).p2p_success ∧
      0 < (get_eval_tests_report [("a", "PASSED")]
        ⟨["m"], ["m"], [], []⟩ false).p2p_success.length +
        (get_eval_tests_report [("a", "PASSED")]
          ⟨["m"], ["m"], [], []⟩ false).p2p_failure.length) :=
  absent_test_counted_as_failure [("a", "PASSED")] ⟨["m"], ["m"], [], []⟩
    false "m" (by decide)

/-! ## Claim C9 -/

/-- For a test id mapped to SKIPPED, `test_passed` and `test_failed` are
both false. -/
theorem test_outcome_of_skipped (sm : StatusMap) (t : String)
    (hsk : sm.lookup t = some TestStatus.SKIPPED) :
    test_passed t sm = false ∧ test_failed t sm = false := by
  simp [test_passed, test_failed, hsk]
  decide

/-- C9: for every evaluation status map, a test id present with status
SKIPPED satisfies neither `test_passed` nor `test_failed`, so
`get_eval_tests_report` places it in neither the success nor the failure
list; it is excluded from the rate denominator (removing it from the
FAIL_TO_PASS reference set changes neither list nor the fail-to-pass
rate); in particular a FAIL_TO_PASS set all of whose ids are SKIPPED
yields fail-to-pass rate 1, the same as an empty set. -/
theorem skipped_test_counted_in_neither_list (sm : StatusMap)
    (gold : GoldResults) (ctf : Bool) (t : String)
    (hsk : sm.lookup t = some TestStatus.SKIPPED) :
    (test_passed t sm = false ∧ test_failed t sm = false ∧
     t ∉ (get_eval_tests_report sm gold ctf).f2p_success ∧
     t ∉ (get_eval_tests_report sm gold ctf).f2p_failure ∧
     t ∉ (get_eval_tests_report sm gold ctf).p2p_success ∧
     t ∉ (get_eval_tests_report sm gold ctf).p2p_failure) ∧
    ((get_eval_tests_report sm
        { gold with FAIL_TO_PASS := gold.FAIL_TO_PASS.filter (fun u => u != t) }
        ctf).f2p_success = (get_eval_tests_report sm gold ctf).f2p_success ∧
     (get_eval_tests_report sm
        { gold with FAIL_TO_PASS := gold.FAIL_TO_PASS.filter (fun u => u != t) }
        ctf).f2p_failure = (get_eval_tests_report sm gold ctf).f2p_failure ∧
     compute_fail_to_pass (get_eval_tests_report sm
        { gold with FAIL_TO_PASS := gold.FAIL_TO_PASS.filter (fun u => u != t) }
        ctf) = compute_fail_to_pass (get_eval_tests_report sm gold ctf)) ∧
    ((∀ u ∈ gold.FAIL_TO_PASS, sm.lookup u = some TestStatus.SKIPPED) →
      (get_eval_tests_report sm gold ctf).f2p_success = [] ∧
      (get_eval_tests_report sm gold ctf).f2p_failure = [] ∧
      compute_fail_to_pass (get_eval_tests_report sm gold ctf) = 1 ∧
      compute_fail_to_pass (get_eval_tests_report sm gold ctf) =
        compute_fail_to_pass
          (get_eval_tests_report sm { gold with FAIL_TO_PASS := [] } ctf)) := by
  obtain ⟨hp, hf⟩ := test_outcome_of_skipped sm t hsk
  have hsucc : (gold.FAIL_TO_PASS.filter (fun u => u != t)).filter
      (fun u => test_passed u sm) =
      gold.FAIL_TO_PASS.filter (fun u => test_passed u sm) := by
    rw [List.filter_filter]
    apply List.filter_congr
    intro a _
    by_cases ha : a = t
    · subst ha
      simp [hp]
    · simp [ha]
  have hfail : (gold.FAIL_TO_PASS.filter (fun u => u != t)).filter
      (fun u => !test_passed u sm && test_failed u sm) =
      gold.FAIL_TO_PASS.filter (fun u => !test_passed u sm && test_failed u sm) := by
    rw [List.filter_filter]
    apply List.filter_congr
    intro a _
    by_cases ha : a = t
    · subst ha
      simp [hf]
    · simp [ha]
  refine ⟨⟨hp, hf, ?_, ?_, ?_, ?_⟩, ⟨hsucc, hfail, ?_⟩, ?_⟩
  · intro hmem
    have := ((mem_f2p_success_iff sm gold ctf t).1 hmem).2
    rw [hp] at this
    exact Bool.false_ne_true this
  · intro hmem
    have := ((mem_f2p_failure_iff sm gold ctf t).1 hmem).2.2
    rw [hf] at this
    exact Bool.false_ne_true this
  · intro hmem
    have := ((mem_p2p_success_iff sm gold ctf t).1 hmem).2
    rw [hp] at this
    exact Bool.false_ne_true this
  · intro hmem
    have := ((mem_p2p_failure_iff sm gold ctf t).1 hmem).2.2
    rw [hf] at this
    exact Bool.false_ne_true this
  · rw [compute_fail_to_pass_eq_rate, compute_fail_to_pass_eq_rate]
    show successRate
        ((gold.FAIL_TO_PASS.filter (fun u => u != t)).filter
          (fun u => test_passed u sm)).length
        ((gold.FAIL_TO_PASS.filter (fun u => u != t)).filter
          (fun u => !test_passed u sm && test_failed u sm)).length =
      successRate
        (gold.FAIL_TO_PASS.filter (fun u => test_passed u sm)).length
        (gold.FAIL_TO_PASS.filter
          (fun u => !test_passed u sm && test_failed u sm)).length
    rw [hsucc, hfail]
  · intro hall
    have hsuccnil : (get_eval_tests_report sm gold ctf).f2p_success = [] := by
      apply List.filter_eq_nil_iff.2
      intro u hu
      obtain ⟨hpu, -⟩ := test_outcome_of_skipped sm u (hall u hu)
      simp [hpu]
    have hfailnil : (get_eval_tests_report sm gold ctf).f2p_failure = [] := by
      apply List.filter_eq_nil_iff.2
      intro u hu
      obtain ⟨-, hfu⟩ := test_outcome_of_skipped sm u (hall u hu)
      simp [hfu]
    have hrate : compute_fail_to_pass (get_eval_tests_report sm gold ctf) = 1 := by
      rw [compute_fail_to_pass_eq_rate, hsuccnil, hfailnil]
      rfl
    refine ⟨hsuccnil, hfailnil, hrate, ?_⟩
    rw [hrate, compute_fail_to_pass_eq_rate]
    have h1 : (get_eval_tests_report sm
        { gold with FAIL_TO_PASS := [] } ctf).f2p_success = [] := rfl
    have h2 : (get_eval_tests_report sm
        { gold with FAIL_TO_PASS := [] } ctf).f2p_failure = [] := rfl
    rw [h1, h2]
    rfl

/-- Witness for C9: a concrete map in which FAIL_TO_PASS holds a PASSED id
"a" alongside the SKIPPED id "t": the skipped id lands in no list, and
dropping it from the reference set changes neither list nor the rate. -/
theorem skipped_test_counted_in_neither_list_witness :
    (test_passed "t" [("a", "PASSED"), ("t", "SKIPPED")] = false ∧
     test_failed "t" [("a", "PASSED"), ("t", "SKIPPED")] = false ∧
     "t" ∉ (get_eval_tests_report [("a", "PASSED"), ("t", "SKIPPED")]
       ⟨["a", "t"], ["a"], [], []⟩ false).f2p_success ∧
     "t" ∉ (get_eval_tests_report [("a", "PASSED"), ("t", "SKIPPED")]
       ⟨["a", "t"], ["a"], [], []⟩ false).f2p_failure ∧
     "t" ∉ (get_eval_tests_report [("a", "PASSED"), ("t", "SKIPPED")]
       ⟨["a", "t"], ["a"], [], []⟩ false).p2p_success ∧
     "t" ∉ (get_eval_tests_report [("a", "PASSED"), ("t", "SKIPPED")]
       ⟨["a", "t"], ["a"], [], []⟩ false).p2p_failure) ∧
    ((get_eval_tests_report [("a", "PASSED"), ("t", "SKIPPED")]
        ⟨(["a", "t"] : List String).filter (fun u => u != "t"), ["a"], [], []⟩
        false).f2p_success =
      (get_eval_tests_report [("a", "PASSED"), ("t", "SKIPPED")]
        ⟨["a", "t"], ["a"], [], []⟩ false).f2p_success ∧
     (get_eval_tests_report [("a", "PASSED"), ("t", "SKIPPED")]
        ⟨(["a", "t"] : List String).filter (fun u => u != "t"), ["a"], [], []⟩
        false).f2p_failure =
      (get_eval_tests_report [("a", "PASSED"), ("t", "SKIPPED")]
        ⟨["a", "t"], ["a"], [], []⟩ false).f2p_failure ∧
     compute_fail_to_pass (get_eval_tests_report
        [("a", "PASSED"), ("t", "SKIPPED")]
        ⟨(["a", "t"] : List String).filter (fun u => u != "t"), ["a"], [], []⟩
        false) =
      compute_fail_to_pass (get_eval_tests_report
        [("a", "PASSED"), ("t", "SKIPPED")]
        ⟨["a", "t"], ["a"], [], []⟩ false)) ∧
    ((∀ u ∈ (["a", "t"] : List String),
        List.lookup u [("a", "PASSED"), ("t", "SKIPPED")] =
          some TestStatus.SKIPPED) →
      (get_eval_tests_report [("a", "PASSED"), ("t", "SKIPPED")]
        ⟨["a", "t"], ["a"], [], []⟩ false).f2p_success = [] ∧
      (get_eval_tests_report [("a", "PASSED"), ("t", "SKIPPED")]
        ⟨["a", "t"], ["a"], [], []⟩ false).f2p_failure = [] ∧
      compute_fail_to_pass (get_eval_tests_report
        [("a", "PASSED"), ("t", "SKIPPED")]
        ⟨["a", "t"], ["a"], [], []⟩ false) = 1 ∧
      compute_fail_to_pass (get_eval_tests_report
        [("a", "PASSED"), ("t", "SKIPPED")]
        ⟨["a", "t"], ["a"], [], []⟩ false) =
        compute_fail_to_pass (get_eval_tests_report
          [("a", "PASSED"), ("t", "SKIPPED")] ⟨[], ["a"], [], []⟩ false)) :=
  skipped_test_counted_in_neither_list [("a", "PASSED"), ("t", "SKIPPED")]
    ⟨["a", "t"], ["a"], [], []⟩ false "t" (by decide)

/-! ## Python string primitives over character lists

Native `String` operations are replaced by executable character-list
versions so that concrete instances evaluate inside the kernel. These model
Python `in`, `str.lower` (over the ASCII log markers) and `str.split`. -/

/-- Whether `pat` is a prefix of `s`. -/
def startsWithList : (pat s : List Char) → Bool
  | [], _ => true
  | _ :: _, [] => false
  | p :: ps, c :: cs => p == c && startsWithList ps cs

/-- Whether `pat` occurs contiguously in `s`: the Python `pat in s` test. -/
def containsList : (s pat : List Char) → Bool
  | [], pat => startsWithList pat []
  | c :: cs, pat => startsWithList pat (c :: cs) || containsList cs pat

/-- The Python substring test `pat in s` on strings. -/
def pyContains (s pat : String) : Bool := containsList s.data pat.data

/-- ASCII lower-casing of one character (the log markers are ASCII, so
this matches Python `str.lower` on them). -/
def asciiLower (c : Char) : Char :=
  if c.toNat ≥ 65 ∧ c.toNat ≤ 90 then Char.ofNat (c.toNat + 32) else c

/-- The Python `s.lower()` over ASCII content. -/
def pyLower (s : String) : String := String.mk (s.data.map asciiLower)

/-- Fuel-driven worker for `pySplit`: splits at each non-overlapping
occurrence of the nonempty separator `sep`. -/
def splitAuxList (sep : List Char) : Nat → List Char → List Char → List (List Char)
  | 0, s, acc => [acc.reverse ++ s]
  | _fuel + 1, [], acc => [acc.reverse]
  | fuel + 1, c :: cs, acc =>
    if !sep.isEmpty && startsWithList sep (c :: cs) then
      acc.reverse :: splitAuxList sep fuel (List.drop sep.length (c :: cs)) []
    else splitAuxList sep fuel cs (c :: acc)

/-- The Python `s.split(sep)` for a nonempty separator. -/
def pySplit (s sep : String) : List String :=
  (splitAuxList sep.data (s.data.length + 1) s.data []).map String.mk

/-- The Python `s.split(sep)[-1]`. -/
def pySplitLast (s sep : String) : String := (pySplit s sep).getLastD ""

/-! ## Evaluation log handling (swebench/harness/grading.py) -/

/-- Condition under which `get_logs_eval` rejects the log: some failure
marker is present, or the applied-patch success marker is absent
(case-insensitively). This is exactly the `if any([...]) or ...` test of
the source. -/
def eval_log_failure_marker (content : String) : Bool :=
  pyContains content APPLY_PATCH_FAIL || pyContains content RESET_FAILED ||
  pyContains content TESTS_ERROR || pyContains content TESTS_TIMEOUT ||
  pyContains content "Failed to reset task environment" ||
  !pyContains (pyLower content) "applied patch"

/-- Embedding of `grading.get_logs_eval` over the content of the log file.
The per-repo parser selected through MAP_REPO_TO_PARSER is passed as a
function argument (the parser registry itself is external to the grading
logic). Returns the status map and whether the patch applied. -/
def get_logs_eval (logParser : String → StatusMap) (content : String) :
    StatusMap × Bool :=
  if eval_log_failure_marker content then ([], false)
  else (logParser (pySplitLast content (APPLY_PATCH_PASS ++ " (pred)")), true)

/-- Prediction record: the fields of the predictions dict that
`get_eval_report` reads. -/
structure Prediction where
  instance_id : String
  model_patch : Option String
deriving Repr, DecidableEq

/-- Dockerfile reduced to its dependency and remaining content.
Modelled from the spec: the Dockerfile templating of the Spec Builder is
not among the provided sources; per the spec the env dockerfile is
`FROM base`, the instance dockerfile `FROM env`, and the base dockerfile
has no image dependency. -/
structure Dockerfile where
  from_image : Option String
  body : String
deriving Repr, DecidableEq

/-- Test spec of one task instance (swebench/harness/test_spec.py data
model, as described by the spec's Data Model section). -/
structure TestSpec where
  instance_id : String
  repo : String
  version : String
  platform : String
  base_image_key : String
  env_image_key : String
  instance_image_key : String
  base_dockerfile : Dockerfile
  env_dockerfile : Dockerfile
  instance_dockerfile : Dockerfile
  setup_env_script : String
  install_repo_script : String
  eval_script : String
  FAIL_TO_PASS : List String
  PASS_TO_PASS : List String
deriving Repr, DecidableEq

/-- Per-instance entry of the report map returned by `get_eval_report`.
The pre-initialized dict keys are the four Bool fields; `none_key` models
the separate `"none"` key that is only added when the model patch is None,
and `tests_status` the optional `"tests_status"` key. -/
structure InstanceReport where
  patch_is_None : Bool
  patch_exists : Bool
  patch_successfully_applied : Bool
  resolved : Bool
  none_key : Option Bool
  tests_status : Option TestsReport
deriving Repr, DecidableEq

/-- Embedding of `grading.get_eval_report`: builds the per-instance report
from the prediction and the evaluation log content. -/
def get_eval_report (test_spec : TestSpec) (prediction : Prediction)
    (logParser : String → StatusMap) (log_content : String)
    (include_tests_status : Bool) : InstanceReport :=
  let report0 : InstanceReport :=
    ⟨false, false, false, false, Option.none, Option.none⟩
  match prediction.model_patch with
  | Option.none => { report0 with none_key := some true }
  | some _ =>
    let report1 := { report0 with patch_exists := true }
    let res := get_logs_eval logParser log_content
    if !res.2 then report1
    else
      let report2 := { report1 with patch_successfully_applied := true }
      let eval_ref : GoldResults :=
        ⟨test_spec.FAIL_TO_PASS, test_spec.PASS_TO_PASS, [], []⟩
      let report := get_eval_tests_report res.1 eval_ref false
      let report3 :=
        if get_resolution_status report = ResolvedStatus.FULL then
          { report2 with resolved := true }
        else report2
      if include_tests_status then { report3 with tests_status := some report }
      else report3

/-! ## Claim C4 -/

/-- C4: when the log content matches a failure marker (patch-apply-failed,
reset-failed, tests-errored, tests-timed-out) or lacks the applied-patch
success marker, `get_logs_eval` returns the empty status map with
applied = false, and `get_eval_report` reports
patch_successfully_applied = false and resolved = false without invoking
any log parser (its result does not depend on the parser). -/
theorem apply_failure_skips_grading (content : String)
    (h : eval_log_failure_marker content = true) :
    (∀ logParser, get_logs_eval logParser content = ([], false)) ∧
    (∀ ts pred logParser inc,
      (get_eval_report ts pred logParser content inc).patch_successfully_applied
        = false ∧
      (get_eval_report ts pred logParser content inc).resolved = false ∧
      (∀ logParser2, get_eval_report ts pred logParser content inc =
        get_eval_report ts pred logParser2 content inc)) := by
  have hlogs : ∀ logParser : String → StatusMap,
      get_logs_eval logParser content = ([], false) := by
    intro logParser
    simp [get_logs_eval, h]
  refine ⟨hlogs, fun ts pred logParser inc => ?_⟩
  match hp : pred.model_patch with
  | Option.none =>
    simp [get_eval_report, hp]
  | some p =>
    simp [get_eval_report, hp, hlogs]

/-- Concrete test spec used by witnesses. -/
def witnessSpec : TestSpec :=
  ⟨"repo__repo-1", "owner/repo", "1.0", "linux/x86_64",
    "base:latest", "env:latest", "instance.repo-1:latest",
    ⟨Option.none, "base dockerfile"⟩, ⟨some "base:latest", "env dockerfile"⟩,
    ⟨some "env:latest", "instance dockerfile"⟩,
    "setup env", "install repo", "run tests", ["tf"], ["tp"]⟩

/-- Witness for C4: a concrete log containing the patch-apply-failed
marker short-circuits grading, for two different parsers. -/
theorem apply_failure_skips_grading_witness :
    get_logs_eval (fun _ => [("tf", "PASSED")])
      ">>>>> Patch Apply Failed (pred)" = ([], false) ∧
    (get_eval_report witnessSpec ⟨"repo__repo-1", some "diff"⟩
      (fun _ => [("tf", "PASSED")])
      ">>>>> Patch Apply Failed (pred)" true).patch_successfully_applied
        = false ∧
    (get_eval_report witnessSpec ⟨"repo__repo-1", some "diff"⟩
      (fun _ => [("tf", "PASSED")])
      ">>>>> Patch Apply Failed (pred)" true).resolved = false ∧
    get_eval_report witnessSpec ⟨"repo__repo-1", some "diff"⟩
      (fun _ => [("tf", "PASSED")]) ">>>>> Patch Apply Failed (pred)" true =
    get_eval_report witnessSpec ⟨"repo__repo-1", some "diff"⟩
      (fun _ => [("tf", "FAILED"), ("tp", "FAILED")])
      ">>>>> Patch Apply Failed (pred)" true := by
  have h := apply_failure_skips_grading ">>>>> Patch Apply Failed (pred)"
    (by decide)
  obtain ⟨h2a, h2b, h2c⟩ := h.2 witnessSpec ⟨"repo__repo-1", some "diff"⟩
    (fun _ => [("tf", "PASSED")]) true
  exact ⟨h.1 _, h2a, h2b, h2c _⟩

/-! ## Claim C10 -/

/-- C10: for a prediction whose model_patch is None, `get_eval_report`
leaves the pre-initialized patch_is_None field at false, records the
None-patch condition under the separate key named none set to true, keeps
patch_exists, patch_successfully_applied and resolved false, and its
result does not depend on the log content or parser (it returns before
reading or parsing any evaluation log). -/
theorem none_patch_reported_under_none_key (ts : TestSpec) (pred : Prediction)
    (logParser : String → StatusMap) (log_content : String)
    (include_tests_status : Bool) (h : pred.model_patch = Option.none) :
    get_eval_report ts pred logParser log_content include_tests_status =
      ⟨false, false, false, false, some true, Option.none⟩ := by
  simp [get_eval_report, h]

/-- Witness for C10: a concrete None-patch prediction, with a parser and a
log content that would grade to FULL had they been consulted. -/
theorem none_patch_reported_under_none_key_witness :
    get_eval_report witnessSpec ⟨"repo__repo-1", Option.none⟩
      (fun _ => [("tf", "PASSED"), ("tp", "PASSED")])
      ">>>>> Applied Patch (pred)" true =
      ⟨false, false, false, false, some true, Option.none⟩ :=
  none_patch_reported_under_none_key witnessSpec ⟨"repo__repo-1", Option.none⟩
    (fun _ => [("tf", "PASSED"), ("tp", "PASSED")])
    ">>>>> Applied Patch (pred)" true rfl

/-! ## Command execution with timeout (swebench/harness/docker_utils.py) -/

/-- Docker API calls that `exec_run_with_timeout` may issue, including the
inspect and signal calls that the spec attributes to the timeout path. -/
inductive DockerAction where
  | execCreate (containerId cmd : String)
  | execStart
  | execInspect
  | killSignal (pid : Nat)
deriving DecidableEq, Repr

/-- Environment of one call to `exec_run_with_timeout`: whether the worker
thread finishes within the timeout, the exception its body raised if any,
and the output of `exec_start` otherwise. -/
structure ExecBehavior where
  completes_within_timeout : Bool
  raised : Option String
  output : String
deriving Repr, DecidableEq

/-- Outcome of `exec_run_with_timeout` as seen by the caller. -/
inductive ExecRunResult where
  | value (output : String)
  | raisedException (msg : String)
  | raisedTimeoutError (cmd : String) (timeout : Nat)
deriving DecidableEq, Repr

/-- Embedding of `docker_utils.exec_run_with_timeout`: the worker thread
issues `exec_create` then `exec_start`; after `thread.join(timeout)` the
caller re-raises a worker exception, raises TimeoutError when the thread
is still alive, and otherwise returns the captured result. The second
component records every Docker API action performed. -/
def exec_run_with_timeout (containerId cmd : String) (timeout : Nat)
    (behavior : ExecBehavior) : ExecRunResult × List DockerAction :=
  let actions := [DockerAction.execCreate containerId cmd, DockerAction.execStart]
  if behavior.completes_within_timeout then
    match behavior.raised with
    | some msg => (ExecRunResult.raisedException msg, actions)
    | Option.none => (ExecRunResult.value behavior.output, actions)
  else (ExecRunResult.raisedTimeoutError cmd timeout, actions)

/-! ## Claim C5 -/

/-- Counterexample for C5: on a concrete timed-out command,
`exec_run_with_timeout` performs no exec-inspect call and sends no
termination signal — the claimed inspect-then-kill behavior does not
happen. -/
theorem exec_timeout_no_kill_counterexample :
    ¬(DockerAction.execInspect ∈
        (exec_run_with_timeout "c1" "run tests" 60 ⟨false, Option.none, ""⟩).2 ∧
      ∃ pid, DockerAction.killSignal pid ∈
        (exec_run_with_timeout "c1" "run tests" 60 ⟨false, Option.none, ""⟩).2) := by
  rintro ⟨hinspect, -, -⟩
  simp [exec_run_with_timeout] at hinspect

/-- C5 amended: a command that does not complete within the timeout makes
`exec_run_with_timeout` raise TimeoutError carrying the command and the
timeout — a distinguished timed-out outcome, never a clean result value —
while performing no exec-inspect call and sending no termination signal to
the remote process. -/
theorem exec_timeout_raises_timeout_error (containerId cmd : String)
    (timeout : Nat) (behavior : ExecBehavior)
    (h : behavior.completes_within_timeout = false) :
    exec_run_with_timeout containerId cmd timeout behavior =
      (ExecRunResult.raisedTimeoutError cmd timeout,
        [DockerAction.execCreate containerId cmd, DockerAction.execStart]) ∧
    (∀ output, (exec_run_with_timeout containerId cmd timeout behavior).1 ≠
      ExecRunResult.value output) ∧
    DockerAction.execInspect ∉
      (exec_run_with_timeout containerId cmd timeout behavior).2 ∧
    (∀ pid, DockerAction.killSignal pid ∉
      (exec_run_with_timeout containerId cmd timeout behavior).2) := by
  refine ⟨by simp [exec_run_with_timeout, h], ?_, ?_, ?_⟩
  · intro output
    simp [exec_run_with_timeout, h]
  · simp [exec_run_with_timeout, h]
  · intro pid
    simp [exec_run_with_timeout, h]

/-- Witness for the amended C5 at a concrete timed-out command. -/
theorem exec_timeout_raises_timeout_error_witness :
    exec_run_with_timeout "c1" "bash eval.sh" 900 ⟨false, Option.none, ""⟩ =
      (ExecRunResult.raisedTimeoutError "bash eval.sh" 900,
        [DockerAction.execCreate "c1" "bash eval.sh", DockerAction.execStart]) ∧
    (∀ output,
      (exec_run_with_timeout "c1" "bash eval.sh" 900 ⟨false, Option.none, ""⟩).1 ≠
        ExecRunResult.value output) ∧
    DockerAction.execInspect ∉
      (exec_run_with_timeout "c1" "bash eval.sh" 900 ⟨false, Option.none, ""⟩).2 ∧
    (∀ pid, DockerAction.killSignal pid ∉
      (exec_run_with_timeout "c1" "bash eval.sh" 900 ⟨false, Option.none, ""⟩).2) :=
  exec_timeout_raises_timeout_error "c1" "bash eval.sh" 900
    ⟨false, Option.none, ""⟩ rfl

/-! ## Docker image cache model (swebench/harness/docker_build.py)

The container engine state is reduced to what the build pipeline
observes: for each image name its creation stamp (`Created`, compared for
staleness) and its dependency (the FROM image of the dockerfile that
built it, the ancestry that dependent-image search traverses). The clock
provides strictly increasing creation stamps for successive builds. -/

/-- Engine-side record of one image. -/
structure ImageInfo where
  created : Nat
  parent : Option String
deriving Repr, DecidableEq

/-- Engine state: images by name (association list, unique names kept by
construction) plus the build clock. -/
structure DockerClient where
  images : List (String × ImageInfo)
  clock : Nat
deriving Repr, DecidableEq

/-- The `client.images.get(name)` lookup, `none` for ImageNotFound. -/
def images_get (client : DockerClient) (name : String) : Option ImageInfo :=
  client.images.lookup name

/-- Removal of an image from the engine.
Modelled from the spec: `docker_utils.remove_image` is referenced by the
build pipeline but is not among the provided sources; per the spec it
removes the named image from the engine. -/
def remove_image (client : DockerClient) (name : String) : DockerClient :=
  ⟨client.images.filter (fun p => p.1 != name), client.clock⟩

/-- Ancestor chain of an image: its dependency, that image's dependency,
and so on (bounded by the fuel). -/
def ancestorsWithFuel (client : DockerClient) : Nat → String → List String
  | 0, _ => []
  | fuel + 1, name =>
    match images_get client name with
    | some img =>
      match img.parent with
      | some p => p :: ancestorsWithFuel client fuel p
      | Option.none => []
    | Option.none => []

/-- Names of the images that transitively depend on `target`.
Modelled from the spec: `docker_utils.find_dependent_images` is referenced
by the build pipeline but is not among the provided sources; per the spec
dependents are found through image ancestry, transitively. -/
def find_dependent_images (client : DockerClient) (target : String) : List String :=
  (client.images.filter
    (fun p => target ∈ ancestorsWithFuel client client.images.length p.1)).map
    Prod.fst

/-- Engine effect of `build_image`: the built image is registered under
its name with a fresh creation stamp and with the dockerfile's FROM image
as dependency. The logging, build-context writing and streamed engine
response of the source function do not affect the cache state. -/
def build_image (client : DockerClient) (image_name : String)
    (dockerfile : Dockerfile) : DockerClient :=
  ⟨(image_name, ⟨client.clock, dockerfile.from_image⟩) ::
    client.images.filter (fun p => p.1 != image_name), client.clock + 1⟩

/-- Python dict insertion `m[k] = v`: replace in place when present,
append otherwise. -/
def dictInsert {A : Type} (m : List (String × A)) (k : String) (v : A) :
    List (String × A) :=
  if (m.lookup k).isSome then
    m.map (fun p => if p.1 = k then (k, v) else p)
  else m ++ [(k, v)]

/-- Python dict built from a sequence of key-value pairs (last value per
key wins, first-insertion order). -/
def dictOfList {A : Type} (l : List (String × A)) : List (String × A) :=
  l.foldl (fun m p => dictInsert m p.1 p.2) []

/-- Embedding of `docker_build.build_base_images`: collect the base image
dict over the specs, remove all of them first under force-rebuild, then
for each one skip it when it exists (without force-rebuild) and build it
otherwise. Returns the new engine state and the list of images built. -/
def build_base_images (client : DockerClient) (dataset : List TestSpec)
    (force_rebuild : Bool) : DockerClient × List String :=
  let base_images := dictOfList
    (dataset.map (fun x => (x.base_image_key, (x.base_dockerfile, x.platform))))
  let client1 := if force_rebuild then
    base_images.foldl (fun c kv => remove_image c kv.1) client
  else client
  base_images.foldl
    (fun acc kv =>
      match images_get acc.1 kv.1 with
      | some _ =>
        if force_rebuild then
          (build_image (remove_image acc.1 kv.1) kv.1 kv.2.1, acc.2 ++ [kv.1])
        else acc
      | Option.none => (build_image acc.1 kv.1 kv.2.1, acc.2 ++ [kv.1]))
    (client1, [])

/-- Errors of the build pipeline. The source raises a plain Exception for
a missing base image (`exn`), `BuildImageError` for build and container
failures, and Python KeyError for a failed dict lookup. The spec's error
taxonomy additionally names `ConfigurationError` for an unknown
(repo, version) key; the constructor is declared so that claims about it
can be stated. -/
inductive HarnessError where
  | exn (msg : String)
  | keyError (key : String)
  | buildImageError (instance_id : String) (msg : String)
  | configurationError (msg : String)
deriving Repr, DecidableEq

/-- Value of one entry of the env-image config dict assembled by
`get_env_configs_to_build`. -/
structure EnvConfig where
  setup_script : String
  dockerfile : Dockerfile
  platform : String
deriving Repr, DecidableEq

/-- Loop of `get_env_configs_to_build` over the test specs, threading the
engine state, the base-image cache dict and the config dict being built.
For each spec: resolve the base image (through the cache; a missing base
image raises), then if the env image exists and is stale (created before
its base image), remove every transitively dependent image, remove the env
image itself and schedule it for rebuild; if the env image does not exist,
schedule it; a fresh existing env image is skipped. -/
def get_env_configs_to_build_loop :
    DockerClient → List (String × ImageInfo) → List (String × EnvConfig) →
    List TestSpec → Except HarnessError (DockerClient × List (String × EnvConfig))
  | client, _, image_scripts, [] => Except.ok (client, image_scripts)
  | client, base_images, image_scripts, test_spec :: rest =>
    let fetched : Option (List (String × ImageInfo) × ImageInfo) :=
      match base_images.lookup test_spec.base_image_key with
      | some img => some (base_images, img)
      | Option.none =>
        match images_get client test_spec.base_image_key with
        | some img => some (base_images ++ [(test_spec.base_image_key, img)], img)
        | Option.none => Option.none
    match fetched with
    | Option.none => Except.error (HarnessError.exn
        ("Base image " ++ test_spec.base_image_key ++ " not found for " ++
          test_spec.env_image_key ++ ". Please build the base images first."))
    | some (base_images2, base_image) =>
      match images_get client test_spec.env_image_key with
      | some env_image =>
        if env_image.created < base_image.created then
          let client2 := (find_dependent_images client
            test_spec.env_image_key).foldl remove_image client
          let client3 := remove_image client2 test_spec.env_image_key
          get_env_configs_to_build_loop client3 base_images2
            (dictInsert image_scripts test_spec.env_image_key
              ⟨test_spec.setup_env_script, test_spec.env_dockerfile,
                test_spec.platform⟩) rest
        else
          get_env_configs_to_build_loop client base_images2 image_scripts rest
      | Option.none =>
        get_env_configs_to_build_loop client base_images2
          (dictInsert image_scripts test_spec.env_image_key
            ⟨test_spec.setup_env_script, test_spec.env_dockerfile,
              test_spec.platform⟩) rest

/-- Embedding of `docker_build.get_env_configs_to_build`. -/
def get_env_configs_to_build (client : DockerClient) (dataset : List TestSpec) :
    Except HarnessError (DockerClient × List (String × EnvConfig)) :=
  get_env_configs_to_build_loop client [] [] dataset

/-- Embedding of `docker_build.build_env_images`: under force-rebuild
first remove every required env image, then build the base images, then
build exactly the configs selected by `get_env_configs_to_build` (the
worker pool is modelled sequentially; within a tier the build order is
unspecified and each image name is built at most once). Returns the new
engine state and the images built across both tiers. -/
def build_env_images (client : DockerClient) (dataset : List TestSpec)
    (force_rebuild : Bool) : Except HarnessError (DockerClient × List String) :=
  let client1 := if force_rebuild then
    ((dataset.map (fun x => x.env_image_key)).dedup).foldl remove_image client
  else client
  let base_result := build_base_images client1 dataset force_rebuild
  match get_env_configs_to_build base_result.1 dataset with
  | Except.error e => Except.error e
  | Except.ok (client2, configs_to_build) =>
    let envs := configs_to_build.foldl
      (fun acc kv => (build_image acc.1 kv.1 kv.2.dockerfile, acc.2 ++ [kv.1]))
      (client2, [])
    Except.ok (envs.1, base_result.2 ++ envs.2)

/-- Embedding of `docker_build.build_instance_image`: require the env
image to exist (else BuildImageError), then skip the build when the
instance image exists and is not stale; a stale instance image (created
before its env image) is removed first and then rebuilt. -/
def build_instance_image (client : DockerClient) (test_spec : TestSpec)
    (_nocache : Bool) : Except HarnessError (DockerClient × List String) :=
  match images_get client test_spec.env_image_key with
  | Option.none => Except.error (HarnessError.buildImageError
      test_spec.instance_id
      ("Environment image " ++ test_spec.env_image_key ++ " not found for " ++
        test_spec.instance_id))
  | some env_image =>
    let checked : DockerClient × Bool :=
      match images_get client test_spec.instance_image_key with
      | some instance_image =>
        if instance_image.created < env_image.created then
          (remove_image client test_spec.instance_image_key, false)
        else (client, true)
      | Option.none => (client, false)
    if checked.2 then Except.ok (checked.1, [])
    else Except.ok
      (build_image checked.1 test_spec.instance_image_key
        test_spec.instance_dockerfile, [test_spec.instance_image_key])

/-- Embedding of `docker_build.build_instance_images`: under force-rebuild
remove every instance image first, build env (and base) images, then build
each instance image; per-instance build errors are collected, not
propagated (partial-failure policy). Returns the new engine state and
every image built in the pass. -/
def build_instance_images (client : DockerClient) (dataset : List TestSpec)
    (force_rebuild : Bool) : Except HarnessError (DockerClient × List String) :=
  let client1 := if force_rebuild then
    dataset.foldl (fun c s => remove_image c s.instance_image_key) client
  else client
  match build_env_images client1 dataset force_rebuild with
  | Except.error e => Except.error e
  | Except.ok (client2, env_built) =>
    let res := dataset.foldl
      (fun acc spec =>
        match build_instance_image acc.1 spec false with
        | Except.ok (c, b) => (c, acc.2 ++ b)
        | Except.error _ => acc)
      (client2, ([] : List String))
    Except.ok (res.1, env_built ++ res.2)

/-! ## Container creation (swebench/harness/docker_build.py, build_container) -/

/-- Per-(repo, version) container configuration entries read by
`build_container` from the install specification table. -/
structure ContainerConfig where
  execute_test_as_nonroot : Bool
  nano_cpus : Option Nat
deriving Repr, DecidableEq

/-- Install specification table keyed by repo then by version, the shape
of MAP_REPO_VERSION_TO_SPECS (external data). -/
abbrev SpecsTable : Type := List (String × List (String × ContainerConfig))

/-- The Python lookup `MAP_REPO_VERSION_TO_SPECS[repo][version]`: a missing
repo or version key raises KeyError. -/
def map_repo_version_to_specs_get (table : SpecsTable) (repo version : String) :
    Except HarnessError ContainerConfig :=
  match table.lookup repo with
  | Option.none => Except.error (HarnessError.keyError repo)
  | some versions =>
    match versions.lookup version with
    | Option.none => Except.error (HarnessError.keyError version)
    | some config => Except.ok config

/-- The `str(e)` payload carried into BuildImageError by the
`except Exception` handler. -/
def errorMessage : HarnessError → String
  | HarnessError.exn msg => msg
  | HarnessError.keyError key => key
  | HarnessError.buildImageError _ msg => msg
  | HarnessError.configurationError msg => msg

/-- Deterministic container name per (instance id, run id).
Modelled from the spec: `test_spec.get_instance_container_name` is not
among the provided sources; per the spec the container is named
deterministically from the instance and the run. -/
def get_instance_container_name (test_spec : TestSpec) (run_id : String) :
    String :=
  "sweb.eval." ++ test_spec.instance_id ++ "." ++ run_id

/-- Container record produced by `client.containers.create`. -/
structure Container where
  image : String
  name : String
  user : String
  nano_cpus : Option Nat
deriving Repr, DecidableEq

/-- Embedding of `docker_build.build_container`: build the instance image,
then look up the (repo, version) configuration and create the container;
any exception in that block — including the KeyError of a missing table
entry — is re-raised as BuildImageError carrying its message. -/
def build_container (table : SpecsTable) (client : DockerClient)
    (test_spec : TestSpec) (run_id : String) (nocache force_rebuild : Bool) :
    Except HarnessError (DockerClient × Container) :=
  let client1 := if force_rebuild then
    remove_image client test_spec.instance_image_key
  else client
  match build_instance_image client1 test_spec nocache with
  | Except.error e => Except.error e
  | Except.ok (client2, _) =>
    match map_repo_version_to_specs_get table test_spec.repo test_spec.version with
    | Except.error e =>
      Except.error (HarnessError.buildImageError test_spec.instance_id
        (errorMessage e))
    | Except.ok config =>
      let user := if !config.execute_test_as_nonroot then "root" else "nonroot"
      Except.ok (client2,
        ⟨test_spec.instance_image_key,
          get_instance_container_name test_spec run_id, user, config.nano_cpus⟩)

/-! ### Cache-state lemmas -/

theorem foldl_fixed {α β : Type} (f : α → β → α) (init : α) :
    ∀ l : List β, (∀ b ∈ l, f init b = init) → l.foldl f init = init
  | [], _ => rfl
  | b :: bs, h => by
    rw [List.foldl_cons, h b (by simp)]
    exact foldl_fixed f init bs (fun x hx => h x (by simp [hx]))

theorem mem_dictInsert_key {A : Type} (m : List (String × A)) (k : String)
    (v : A) (p : String × A) (hp : p ∈ dictInsert m k v) :
    p.1 ∈ m.map Prod.fst ∨ p.1 = k := by
  unfold dictInsert at hp
  split at hp
  · obtain ⟨q, hq, he⟩ := List.mem_map.1 hp
    by_cases hqk : q.1 = k
    · rw [if_pos hqk] at he
      right
      rw [← he]
    · rw [if_neg hqk] at he
      left
      exact List.mem_map.2 ⟨q, hq, congrArg Prod.fst he⟩
  · rcases List.mem_append.1 hp with h | h
    · left
      exact List.mem_map.2 ⟨p, h, rfl⟩
    · right
      rw [List.mem_singleton.1 h]

theorem mem_dict_foldl_key {A : Type} :
    ∀ (l : List (String × A)) (acc : List (String × A)) (p : String × A),
      p ∈ l.foldl (fun m q => dictInsert m q.1 q.2) acc →
      p.1 ∈ acc.map Prod.fst ∨ p.1 ∈ l.map Prod.fst
  | [], _, _, hp => Or.inl (List.mem_map.2 ⟨_, hp, rfl⟩)
  | q :: qs, acc, p, hp => by
    rw [List.foldl_cons] at hp
    rcases mem_dict_foldl_key qs (dictInsert acc q.1 q.2) p hp with h | h
    · obtain ⟨r, hr, he⟩ := List.mem_map.1 h
      rcases mem_dictInsert_key acc q.1 q.2 r hr with h2 | h2
      · exact Or.inl (he ▸ h2)
      · exact Or.inr (by simp [← he, h2])
    · exact Or.inr (by simp [h])

theorem mem_dictOfList_key {A : Type} (l : List (String × A)) (p : String × A)
    (hp : p ∈ dictOfList l) : p.1 ∈ l.map Prod.fst :=
  (mem_dict_foldl_key l [] p hp).resolve_left (by simp)

theorem lookup_filter_ne {A : Type} (n m : String) :
    ∀ l : List (String × A),
      (l.filter (fun p => p.1 != n)).lookup m =
        if m = n then Option.none else l.lookup m
  | [] => by
    by_cases h : m = n <;> simp [h, List.lookup]
  | (k, v) :: tl => by
    by_cases hkn : k = n
    · have hfilter : ((k, v) :: tl).filter (fun p => p.1 != n) =
        tl.filter (fun p => p.1 != n) := by
        simp [List.filter_cons, hkn]
      rw [hfilter, lookup_filter_ne n m tl]
      by_cases hmn : m = n
      · simp [hmn]
      · have hmk : (m == k) = false := by
          simp
          intro he
          exact hmn (he.trans hkn)
        simp [hmn, List.lookup, hmk]
    · have hfilter : ((k, v) :: tl).filter (fun p => p.1 != n) =
        (k, v) :: tl.filter (fun p => p.1 != n) := by
        simp [List.filter_cons, hkn]
      rw [hfilter]
      by_cases hmk : m = k
      · have hmn : ¬m = n := fun he => hkn (hmk.symm.trans he)
        simp [List.lookup, hmk, hmn]
        exact hkn
      · have hmkb : (m == k) = false := by simp [hmk]
        simp only [List.lookup, hmkb]
        rw [lookup_filter_ne n m tl]

theorem images_get_remove_image (client : DockerClient) (n m : String) :
    images_get (remove_image client n) m =
      if m = n then Option.none else images_get client m := by
  unfold images_get remove_image
  exact lookup_filter_ne n m client.images

theorem clock_remove_image (client : DockerClient) (n : String) :
    (remove_image client n).clock = client.clock := rfl

theorem images_get_foldl_remove (names : List String) :
    ∀ (client : DockerClient) (m : String),
      images_get (names.foldl remove_image client) m =
        if m ∈ names then Option.none else images_get client m := by
  induction names with
  | nil => intro client m; simp
  | cons n ns ih =>
    intro client m
    rw [List.foldl_cons, ih (remove_image client n) m,
      images_get_remove_image client n m]
    by_cases h1 : m ∈ ns
    · simp [h1]
    · by_cases h2 : m = n <;> simp [h1, h2]

theorem clock_foldl_remove (names : List String) :
    ∀ client : DockerClient, (names.foldl remove_image client).clock =
      client.clock := by
  induction names with
  | nil => intro client; rfl
  | cons n ns ih => intro client; rw [List.foldl_cons, ih]; rfl

theorem images_get_build_image (client : DockerClient) (name : String)
    (dockerfile : Dockerfile) (m : String) :
    images_get (build_image client name dockerfile) m =
      if m = name then some ⟨client.clock, dockerfile.from_image⟩
      else images_get client m := by
  unfold images_get build_image
  by_cases hm : m = name
  · simp [List.lookup, hm]
  · have hmb : (m == name) = false := by simp [hm]
    simp only [List.lookup, hmb]
    rw [lookup_filter_ne name m client.images, if_neg hm, if_neg hm]

theorem lookup_append {A : Type} (k : String) :
    ∀ l1 l2 : List (String × A),
      (l1 ++ l2).lookup k =
        match l1.lookup k with
        | some v => some v
        | Option.none => l2.lookup k
  | [], l2 => by simp [List.lookup]
  | (k1, v1) :: tl, l2 => by
    by_cases hk : k = k1
    · simp [List.lookup, hk]
    · have hkb : (k == k1) = false := by simp [hk]
      simp only [List.cons_append, List.lookup, hkb]
      exact lookup_append k tl l2

/-! ### No-op lemmas for the cache-hit pass -/

theorem build_base_images_no_op (c : DockerClient) (specs : List TestSpec)
    (h : ∀ s ∈ specs, (images_get c s.base_image_key).isSome) :
    build_base_images c specs false = (c, []) := by
  unfold build_base_images
  simp only [Bool.false_eq_true, if_false]
  apply foldl_fixed
  intro kv hkv
  have hk := mem_dictOfList_key _ kv hkv
  simp only [List.map_map, List.mem_map, Function.comp] at hk
  obtain ⟨s, hs, hsk⟩ := hk
  have hsome := h s hs
  rw [hsk] at hsome
  cases hg : images_get c kv.1 with
  | none => rw [hg] at hsome; exact absurd hsome (by simp)
  | some img => simp [hg]

theorem gec_loop_skip (c : DockerClient) :
    ∀ (specs : List TestSpec) (cache : List (String × ImageInfo))
      (scripts : List (String × EnvConfig)),
      (∀ k img, cache.lookup k = some img → images_get c k = some img) →
      (∀ s ∈ specs, ∃ b e, images_get c s.base_image_key = some b ∧
        images_get c s.env_image_key = some e ∧ ¬e.created < b.created) →
      get_env_configs_to_build_loop c cache scripts specs =
        Except.ok (c, scripts)
  | [], _, _, _, _ => rfl
  | spec :: rest, cache, scripts, hcache, hspec => by
    obtain ⟨b, e, hb, he, hfresh⟩ := hspec spec (by simp)
    have hrest : ∀ s ∈ rest, ∃ b2 e2,
        images_get c s.base_image_key = some b2 ∧
        images_get c s.env_image_key = some e2 ∧ ¬e2.created < b2.created :=
      fun s hs => hspec s (by simp [hs])
    unfold get_env_configs_to_build_loop
    cases hc : cache.lookup spec.base_image_key with
    | some img =>
      have himg : images_get c spec.base_image_key = some img := hcache _ _ hc
      have himgb : img = b := by
        rw [himg] at hb
        exact Option.some.inj hb
      subst himgb
      simp only [hc, he]
      rw [if_neg hfresh]
      exact gec_loop_skip c rest cache scripts hcache hrest
    | none =>
      simp only [hc, hb, he]
      rw [if_neg hfresh]
      apply gec_loop_skip c rest (cache ++ [(spec.base_image_key, b)]) scripts
      · intro k img hk
        rw [lookup_append] at hk
        cases hck : cache.lookup k with
        | some v =>
          rw [hck] at hk
          simp only [Option.some.injEq] at hk
          exact hk ▸ hcache k v hck
        | none =>
          rw [hck] at hk
          simp only at hk
          by_cases hkb : k = spec.base_image_key
          · subst hkb
            simp [List.lookup] at hk
            rw [← hk]
            exact hb
          · have : (k == spec.base_image_key) = false := by simp [hkb]
            simp [List.lookup, this] at hk
      · exact hrest

theorem get_env_configs_to_build_no_op (c : DockerClient)
    (specs : List TestSpec)
    (h : ∀ s ∈ specs, ∃ b e, images_get c s.base_image_key = some b ∧
      images_get c s.env_image_key = some e ∧ ¬e.created < b.created) :
    get_env_configs_to_build c specs = Except.ok (c, []) :=
  gec_loop_skip c specs [] [] (fun k img hk => by simp [List.lookup] at hk) h

theorem build_instance_image_skip (c : DockerClient) (spec : TestSpec)
    (e i : ImageInfo) (he : images_get c spec.env_image_key = some e)
    (hi : images_get c spec.instance_image_key = some i)
    (hfresh : ¬i.created < e.created) :
    build_instance_image c spec false = Except.ok (c, []) := by
  unfold build_instance_image
  simp only [he, hi]
  rw [if_neg hfresh]
  simp

theorem build_env_images_no_op (c : DockerClient) (specs : List TestSpec)
    (hbase : ∀ s ∈ specs, (images_get c s.base_image_key).isSome)
    (henv : ∀ s ∈ specs, ∃ b e, images_get c s.base_image_key = some b ∧
      images_get c s.env_image_key = some e ∧ ¬e.created < b.created) :
    build_env_images c specs false = Except.ok (c, []) := by
  unfold build_env_images
  simp only [Bool.false_eq_true, if_false]
  rw [build_base_images_no_op c specs hbase]
  simp only
  rw [get_env_configs_to_build_no_op c specs henv]
  simp

theorem build_instance_images_no_op (c : DockerClient) (specs : List TestSpec)
    (hbase : ∀ s ∈ specs, (images_get c s.base_image_key).isSome)
    (henv : ∀ s ∈ specs, ∃ b e, images_get c s.base_image_key = some b ∧
      images_get c s.env_image_key = some e ∧ ¬e.created < b.created)
    (hinst : ∀ s ∈ specs, ∃ e i, images_get c s.env_image_key = some e ∧
      images_get c s.instance_image_key = some i ∧ ¬i.created < e.created) :
    build_instance_images c specs false = Except.ok (c, []) := by
  unfold build_instance_images
  simp only [Bool.false_eq_true, if_false]
  rw [build_env_images_no_op c specs hbase henv]
  simp only
  have hfold : specs.foldl
      (fun acc spec =>
        match build_instance_image acc.1 spec false with
        | Except.ok (c2, b) => (c2, acc.2 ++ b)
        | Except.error _ => acc)
      (c, ([] : List String)) = (c, []) := by
    apply foldl_fixed
    intro s hs
    obtain ⟨e, i, he, hi, hfresh⟩ := hinst s hs
    rw [build_instance_image_skip c s e i he hi hfresh]
    simp
  rw [hfold]
  simp

/-! ## Claim C6 -/

/-- C6: when every image required by the spec set exists and is not stale
relative to its dependency and force-rebuild is off, a pass of the build
pipeline performs zero `build_image` invocations: `build_base_images`
skips every existing base image, `get_env_configs_to_build` returns an
empty config map, `build_instance_image` takes its skip branch for every
spec, and the composed `build_env_images` / `build_instance_images` pass
leaves the engine state unchanged with an empty list of built images. -/
theorem build_pipeline_idempotent (c : DockerClient) (specs : List TestSpec)
    (hbase : ∀ s ∈ specs, (images_get c s.base_image_key).isSome = true)
    (henv : ∀ s ∈ specs, ∃ b e, images_get c s.base_image_key = some b ∧
      images_get c s.env_image_key = some e ∧ ¬e.created < b.created)
    (hinst : ∀ s ∈ specs, ∃ e i, images_get c s.env_image_key = some e ∧
      images_get c s.instance_image_key = some i ∧ ¬i.created < e.created) :
    build_base_images c specs false = (c, []) ∧
    get_env_configs_to_build c specs = Except.ok (c, []) ∧
    build_env_images c specs false = Except.ok (c, []) ∧
    (∀ s ∈ specs, build_instance_image c s false = Except.ok (c, [])) ∧
    build_instance_images c specs false = Except.ok (c, []) :=
  ⟨build_base_images_no_op c specs hbase,
   get_env_configs_to_build_no_op c specs henv,
   build_env_images_no_op c specs hbase henv,
   fun s hs => by
     obtain ⟨e, i, he, hi, hf⟩ := hinst s hs
     exact build_instance_image_skip c s e i he hi hf,
   build_instance_images_no_op c specs hbase henv hinst⟩

/-- Engine state with all three tiers present and fresh, for the C6
witness. -/
def idemClient : DockerClient :=
  ⟨[("base:latest", ⟨1, Option.none⟩), ("env:latest", ⟨2, some "base:latest"⟩),
    ("instance.repo-1:latest", ⟨3, some "env:latest"⟩)], 10⟩

/-- Witness for C6: on a concrete fully cached engine state, a pass of
the pipeline builds nothing. -/
theorem build_pipeline_idempotent_witness :
    build_base_images idemClient [witnessSpec] false = (idemClient, []) ∧
    get_env_configs_to_build idemClient [witnessSpec] =
      Except.ok (idemClient, []) ∧
    build_env_images idemClient [witnessSpec] false =
      Except.ok (idemClient, []) ∧
    (∀ s ∈ [witnessSpec], build_instance_image idemClient s false =
      Except.ok (idemClient, [])) ∧
    build_instance_images idemClient [witnessSpec] false =
      Except.ok (idemClient, []) :=
  build_pipeline_idempotent idemClient [witnessSpec]
    (by decide)
    (by
      intro s hs
      simp only [List.mem_singleton] at hs
      subst hs
      exact ⟨⟨1, Option.none⟩, ⟨2, some "base:latest"⟩, rfl, rfl, by decide⟩)
    (by
      intro s hs
      simp only [List.mem_singleton] at hs
      subst hs
      exact ⟨⟨2, some "base:latest"⟩, ⟨3, some "env:latest"⟩, rfl, rfl,
        by decide⟩)

/-! ## Claim C7 -/

/-- C7: a stale env image (created before its base image) causes the next
pipeline pass to first remove every image that transitively depends on it,
then remove the env image itself and schedule and perform its rebuild; and
a stale instance image (created before its env image) is likewise removed
and rebuilt by `build_instance_image`. Staleness of a rebuilt base image
thus cascades to all transitive dependents over successive passes. -/
theorem staleness_invalidates_dependents
    (c : DockerClient) (spec : TestSpec) (b e : ImageInfo)
    (hb : images_get c spec.base_image_key = some b)
    (he : images_get c spec.env_image_key = some e)
    (hstale : e.created < b.created)
    (c2 : DockerClient) (spec2 : TestSpec) (e2 i2 : ImageInfo)
    (he2 : images_get c2 spec2.env_image_key = some e2)
    (hi2 : images_get c2 spec2.instance_image_key = some i2)
    (hstale2 : i2.created < e2.created) :
    get_env_configs_to_build c [spec] = Except.ok
      (remove_image
        ((find_dependent_images c spec.env_image_key).foldl remove_image c)
        spec.env_image_key,
       [(spec.env_image_key,
         ⟨spec.setup_env_script, spec.env_dockerfile, spec.platform⟩)]) ∧
    (∀ d ∈ find_dependent_images c spec.env_image_key,
      images_get (remove_image
        ((find_dependent_images c spec.env_image_key).foldl remove_image c)
        spec.env_image_key) d = Option.none) ∧
    images_get (remove_image
      ((find_dependent_images c spec.env_image_key).foldl remove_image c)
      spec.env_image_key) spec.env_image_key = Option.none ∧
    build_env_images c [spec] false = Except.ok
      (build_image
        (remove_image
          ((find_dependent_images c spec.env_image_key).foldl remove_image c)
          spec.env_image_key)
        spec.env_image_key spec.env_dockerfile,
       [spec.env_image_key]) ∧
    images_get
      (build_image
        (remove_image
          ((find_dependent_images c spec.env_image_key).foldl remove_image c)
          spec.env_image_key)
        spec.env_image_key spec.env_dockerfile) spec.env_image_key =
      some ⟨c.clock, spec.env_dockerfile.from_image⟩ ∧
    build_instance_image c2 spec2 false = Except.ok
      (build_image (remove_image c2 spec2.instance_image_key)
        spec2.instance_image_key spec2.instance_dockerfile,
       [spec2.instance_image_key]) ∧
    images_get
      (build_image (remove_image c2 spec2.instance_image_key)
        spec2.instance_image_key spec2.instance_dockerfile)
      spec2.instance_image_key =
      some ⟨c2.clock, spec2.instance_dockerfile.from_image⟩ := by
  have hgec : get_env_configs_to_build c [spec] = Except.ok
      (remove_image
        ((find_dependent_images c spec.env_image_key).foldl remove_image c)
        spec.env_image_key,
       [(spec.env_image_key,
         ⟨spec.setup_env_script, spec.env_dockerfile, spec.platform⟩)]) := by
    unfold get_env_configs_to_build get_env_configs_to_build_loop
    simp only [List.lookup, hb, he]
    rw [if_pos hstale]
    simp [get_env_configs_to_build_loop, dictInsert, List.lookup]
  have hdeps : ∀ d ∈ find_dependent_images c spec.env_image_key,
      images_get (remove_image
        ((find_dependent_images c spec.env_image_key).foldl remove_image c)
        spec.env_image_key) d = Option.none := by
    intro d hd
    rw [images_get_remove_image]
    by_cases hde : d = spec.env_image_key
    · rw [if_pos hde]
    · rw [if_neg hde, images_get_foldl_remove, if_pos hd]
  have henvgone : images_get (remove_image
      ((find_dependent_images c spec.env_image_key).foldl remove_image c)
      spec.env_image_key) spec.env_image_key = Option.none := by
    rw [images_get_remove_image, if_pos rfl]
  have hclock : (remove_image
      ((find_dependent_images c spec.env_image_key).foldl remove_image c)
      spec.env_image_key).clock = c.clock := by
    rw [clock_remove_image, clock_foldl_remove]
  have hbuildenv : build_env_images c [spec] false = Except.ok
      (build_image
        (remove_image
          ((find_dependent_images c spec.env_image_key).foldl remove_image c)
          spec.env_image_key)
        spec.env_image_key spec.env_dockerfile,
       [spec.env_image_key]) := by
    unfold build_env_images
    simp only [Bool.false_eq_true, if_false]
    rw [build_base_images_no_op c [spec] (by
      intro s hs
      simp only [List.mem_singleton] at hs
      subst hs
      rw [hb]
      rfl)]
    simp only
    rw [hgec]
    simp
  have henvfresh : images_get
      (build_image
        (remove_image
          ((find_dependent_images c spec.env_image_key).foldl remove_image c)
          spec.env_image_key)
        spec.env_image_key spec.env_dockerfile) spec.env_image_key =
      some ⟨c.clock, spec.env_dockerfile.from_image⟩ := by
    rw [images_get_build_image, if_pos rfl, hclock]
  have hinstbuild : build_instance_image c2 spec2 false = Except.ok
      (build_image (remove_image c2 spec2.instance_image_key)
        spec2.instance_image_key spec2.instance_dockerfile,
       [spec2.instance_image_key]) := by
    unfold build_instance_image
    simp only [he2, hi2]
    rw [if_pos hstale2]
    simp
  have hinstfresh : images_get
      (build_image (remove_image c2 spec2.instance_image_key)
        spec2.instance_image_key spec2.instance_dockerfile)
      spec2.instance_image_key =
      some ⟨c2.clock, spec2.instance_dockerfile.from_image⟩ := by
    rw [images_get_build_image, if_pos rfl, clock_remove_image]
  exact ⟨hgec, hdeps, henvgone, hbuildenv, henvfresh, hinstbuild, hinstfresh⟩

/-- Engine state with a stale env image (created before its base image),
for the C7 witness. -/
def staleEnvClient : DockerClient :=
  ⟨[("base:latest", ⟨5, Option.none⟩), ("env:latest", ⟨3, some "base:latest"⟩),
    ("instance.repo-1:latest", ⟨4, some "env:latest"⟩)], 10⟩

/-- Engine state with a stale instance image (created before its env
image), for the C7 witness. -/
def staleInstanceClient : DockerClient :=
  ⟨[("env:latest", ⟨9, some "base:latest"⟩),
    ("instance.repo-1:latest", ⟨2, some "env:latest"⟩)], 20⟩

/-- Witness for C7 on concrete stale engine states. -/
theorem staleness_invalidates_dependents_witness :
    get_env_configs_to_build staleEnvClient [witnessSpec] = Except.ok
      (remove_image
        ((find_dependent_images staleEnvClient witnessSpec.env_image_key).foldl
          remove_image staleEnvClient) witnessSpec.env_image_key,
       [(witnessSpec.env_image_key,
         ⟨witnessSpec.setup_env_script, witnessSpec.env_dockerfile,
           witnessSpec.platform⟩)]) ∧
    (∀ d ∈ find_dependent_images staleEnvClient witnessSpec.env_image_key,
      images_get (remove_image
        ((find_dependent_images staleEnvClient witnessSpec.env_image_key).foldl
          remove_image staleEnvClient) witnessSpec.env_image_key) d =
        Option.none) ∧
    images_get (remove_image
      ((find_dependent_images staleEnvClient witnessSpec.env_image_key).foldl
        remove_image staleEnvClient) witnessSpec.env_image_key)
      witnessSpec.env_image_key = Option.none ∧
    build_env_images staleEnvClient [witnessSpec] false = Except.ok
      (build_image
        (remove_image
          ((find_dependent_images staleEnvClient
            witnessSpec.env_image_key).foldl remove_image staleEnvClient)
          witnessSpec.env_image_key)
        witnessSpec.env_image_key witnessSpec.env_dockerfile,
       [witnessSpec.env_image_key]) ∧
    images_get
      (build_image
        (remove_image
          ((find_dependent_images staleEnvClient
            witnessSpec.env_image_key).foldl remove_image staleEnvClient)
          witnessSpec.env_image_key)
        witnessSpec.env_image_key witnessSpec.env_dockerfile)
      witnessSpec.env_image_key =
      some ⟨staleEnvClient.clock, witnessSpec.env_dockerfile.from_image⟩ ∧
    build_instance_image staleInstanceClient witnessSpec false = Except.ok
      (build_image (remove_image staleInstanceClient
        witnessSpec.instance_image_key)
        witnessSpec.instance_image_key witnessSpec.instance_dockerfile,
       [witnessSpec.instance_image_key]) ∧
    images_get
      (build_image (remove_image staleInstanceClient
        witnessSpec.instance_image_key)
        witnessSpec.instance_image_key witnessSpec.instance_dockerfile)
      witnessSpec.instance_image_key =
      some ⟨staleInstanceClient.clock,
        witnessSpec.instance_dockerfile.from_image⟩ :=
  staleness_invalidates_dependents staleEnvClient witnessSpec
    ⟨5, Option.none⟩ ⟨3, some "base:latest"⟩ rfl rfl (by decide)
    staleInstanceClient witnessSpec
    ⟨9, some "base:latest"⟩ ⟨2, some "env:latest"⟩ rfl rfl (by decide)

/-! ## Claim C8 -/

/-- Whether a `build_container` outcome is a ConfigurationError. -/
def resultIsConfigurationError :
    Except HarnessError (DockerClient × Container) → Bool
  | Except.error (HarnessError.configurationError _) => true
  | _ => false

theorem build_instance_image_error_shape (c : DockerClient) (spec : TestSpec)
    (n : Bool) (e : HarnessError)
    (h : build_instance_image c spec n = Except.error e) :
    e = HarnessError.buildImageError spec.instance_id
      ("Environment image " ++ spec.env_image_key ++ " not found for " ++
        spec.instance_id) := by
  unfold build_instance_image at h
  cases hg : images_get c spec.env_image_key with
  | none =>
    rw [hg] at h
    exact (Except.error.inj h).symm
  | some img =>
    rw [hg] at h
    simp only at h
    split at h <;> simp at h

/-- C8 amended: a missing (repo, version) entry of the install
specification table makes `build_container` abort with an error — the
KeyError of the failed lookup re-raised as BuildImageError — and never
return a container built from a silently defaulted configuration; no
ConfigurationError class exists to be raised. -/
theorem missing_install_entry_aborts (table : SpecsTable) (c : DockerClient)
    (spec : TestSpec) (run_id : String) (nocache force_rebuild : Bool)
    (err : HarnessError)
    (hlookup : map_repo_version_to_specs_get table spec.repo spec.version =
      Except.error err) :
    (∃ e2, build_container table c spec run_id nocache force_rebuild =
      Except.error e2) ∧
    (∀ result, build_container table c spec run_id nocache force_rebuild ≠
      Except.ok result) ∧
    resultIsConfigurationError
      (build_container table c spec run_id nocache force_rebuild) = false := by
  have hmain : (∃ iid msg,
      build_container table c spec run_id nocache force_rebuild =
        Except.error (HarnessError.buildImageError iid msg)) := by
    unfold build_container
    simp only
    cases hbi : build_instance_image
        (if force_rebuild then remove_image c spec.instance_image_key else c)
        spec nocache with
    | error e =>
      have hsh := build_instance_image_error_shape _ _ _ _ hbi
      subst hsh
      refine ⟨spec.instance_id, "Environment image " ++ spec.env_image_key ++
        " not found for " ++ spec.instance_id, ?_⟩
      simp [hbi]
    | ok pr =>
      refine ⟨spec.instance_id, errorMessage err, ?_⟩
      simp [hbi, hlookup]
  obtain ⟨iid, msg, hmain⟩ := hmain
  refine ⟨⟨_, hmain⟩, ?_, ?_⟩
  · intro result hok
    rw [hmain] at hok
    exact absurd hok (by simp)
  · rw [hmain]
    rfl

/-- Install table fragment with the flask entries, mirroring the external
MAP_REPO_VERSION_TO_SPECS data. -/
def flaskSpecsTable : SpecsTable :=
  [("pallets/flask",
    [("2.0", ⟨false, Option.none⟩), ("2.1", ⟨false, Option.none⟩),
     ("2.2", ⟨false, Option.none⟩), ("2.3", ⟨false, Option.none⟩)])]

/-- Test spec of a flask instance whose version has no entry in the
install table. -/
def flaskSpec : TestSpec :=
  ⟨"flask-1", "pallets/flask", "9.9", "linux/x86_64",
    "base:latest", "env:latest", "instance.flask-1:latest",
    ⟨Option.none, "base dockerfile"⟩, ⟨some "base:latest", "env dockerfile"⟩,
    ⟨some "env:latest", "instance dockerfile"⟩,
    "setup env", "install repo", "run tests", [], []⟩

/-- Engine state in which the flask env and instance images exist and are
fresh, so container creation reaches the configuration lookup. -/
def flaskClient : DockerClient :=
  ⟨[("env:latest", ⟨1, some "base:latest"⟩),
    ("instance.flask-1:latest", ⟨2, some "env:latest"⟩)], 5⟩

/-- Counterexample for C8: for a concrete instance whose (repo, version)
has no entry in the install table, `build_container` fails with
BuildImageError wrapping the KeyError — not with a ConfigurationError as
the claim states. -/
theorem missing_install_entry_counterexample :
    build_container flaskSpecsTable flaskClient flaskSpec "run1" false false =
      Except.error (HarnessError.buildImageError "flask-1" "9.9") ∧
    resultIsConfigurationError
      (build_container flaskSpecsTable flaskClient flaskSpec "run1" false
        false) = false := by
  constructor <;> rfl

/-- Witness for the amended C8 at the concrete flask instance. -/
theorem missing_install_entry_aborts_witness :
    (∃ e2, build_container flaskSpecsTable flaskClient flaskSpec "run1" false
      false = Except.error e2) ∧
    (∀ result, build_container flaskSpecsTable flaskClient flaskSpec "run1"
      false false ≠ Except.ok result) ∧
    resultIsConfigurationError
      (build_container flaskSpecsTable flaskClient flaskSpec "run1" false
        false) = false :=
  missing_install_entry_aborts flaskSpecsTable flaskClient flaskSpec "run1"
    false false (HarnessError.keyError "9.9") rfl
